import Mathlib

/-!
Verification of the JNIHook library (src/src/jnihook.cpp) against its
natural-language specification.

The C++ strings handled by the library (class names, method names, method
descriptors) are embedded as lists of characters, written `Str`.  The JVMTI /
JNI host interface is an external collaborator: the outcome of each host call
is an input of the embedded operation.  The class-file codec lives in
classfile.hpp, which is a file of this repository that is not part of the
given sources; its document type is therefore modelled from the spec (sections
3 and 4.1), restricted to the fields that jnihook.cpp actually reads.
-/

set_option autoImplicit false

namespace JNIHookModel

/-- A C++ std::string, embedded as a list of characters. -/
abbrev Str := List Char

/-- The character rewrite performed by the loop at the end of get_class_name
in jnihook.cpp: a dot becomes a slash, every other character is kept. -/
def dot_to_slash (c : Char) : Char := if c = '.' then '/' else c

/-- The canonicalization step of get_class_name (jnihook.cpp, lines 85-89):
replace every dot of the reflective class name with a slash, yielding the
internal slash-delimited spelling used as the registry and cache key. -/
def canonicalize (s : Str) : Str := s.map dot_to_slash

/-- Embedding of get_class_name (jnihook.cpp, lines 62-92).  The JNI calls
(FindClass, GetMethodID, CallObjectMethod, GetStringUTFChars) are host calls;
their combined outcome is the input `reflectiveName`: `none` when any of them
fails, in which case the function returns the empty string, and `some n` when
they deliver the reflective (dotted) name `n`, which is then canonicalized. -/
def get_class_name (reflectiveName : Option Str) : Str :=
  match reflectiveName with
  | none => []
  | some n => canonicalize n

/-- Modelled from the spec: a constant-pool entry (spec section 3,
ConstantPoolEntry), as read by jnihook.cpp through classfile.hpp, which is not
among the given sources.  jnihook.cpp distinguishes only the UTF8 variant
(read through CONSTANT_Utf8_info) and the Class variant (read through
CONSTANT_Class_info, tag CONSTANT_Class); every other variant is collapsed
into `other` carrying its tag, since the code only skips over them. -/
inductive cp_info where
  | utf8 (bytes : Str)
  | classInfo (name_index : Nat)
  | other (tag : Nat)
deriving DecidableEq

/-- Modelled from the spec: an attribute of a method record (spec section 3,
MethodRecord).  The attribute is identified by the constant-pool index of its
name; its payload is kept as raw bytes. -/
structure attribute_info where
  attribute_name_index : Nat
  info : List Nat
deriving DecidableEq

/-- Modelled from the spec: a method record (spec section 3, MethodRecord),
with the fields jnihook.cpp reads: access flags, name index, descriptor index
and the attribute list (which would hold the Code attribute). -/
structure method_info where
  access_flags : Nat
  name_index : Nat
  descriptor_index : Nat
  attributes : List attribute_info
deriving DecidableEq

/-- Modelled from the spec: the parsed class document (spec section 3,
ClassDocument), restricted to the two fields jnihook.cpp reads through
classfile.hpp: the 1-indexed constant pool (index 0 of the list is the unused
slot the spec declares invalid) and the ordered method records.  The remaining
fields (versions, access flags, interfaces, fields, class attributes) are
never touched by jnihook.cpp and are omitted. -/
structure ClassFile where
  constant_pool : List cp_info
  methods : List method_info
deriving DecidableEq

/-- Constant-pool lookup by 1-based index, as used through
cf.get_constant_pool_item in jnihook.cpp. -/
def get_constant_pool_item (cf : ClassFile) (idx : Nat) : Option cp_info :=
  cf.constant_pool.get? idx

/-- Resolve a constant-pool index expected to hold a UTF8 entry, as the
CONSTANT_Utf8_info casts in jnihook.cpp do; a missing or non-UTF8 entry
yields `none` (in the C++ this would be an ill-formed class file). -/
def utf8At (cf : ClassFile) (idx : Nat) : Option Str :=
  match get_constant_pool_item cf idx with
  | some (cp_info.utf8 s) => some s
  | _ => none

/-- The JVM native access flag ACC_NATIVE (0x0100). -/
def ACC_NATIVE : Nat := 256

/-- Whether a method record carries a Code attribute, i.e. an attribute whose
name index resolves to the UTF8 string "Code" in the pool of `cf`. -/
def hasCodeAttr (cf : ClassFile) (m : method_info) : Bool :=
  m.attributes.any (fun a =>
    decide (utf8At cf a.attribute_name_index = some ['C', 'o', 'd', 'e']))

/-- Whether a method record of `cf` resolves to the given name and
descriptor through the UTF8 accessors, as step 6 of Attach in the spec asks. -/
def methodMatches (cf : ClassFile) (name descriptor : Str) (m : method_info) : Bool :=
  decide (utf8At cf m.name_index = some name) &&
  decide (utf8At cf m.descriptor_index = some descriptor)

/-- The method name / signature pair returned by GetMethodName
(method_info_t in jnihook.cpp). -/
structure method_info_t where
  name : Str
  signature : Str
deriving DecidableEq

/-- A registered hook (hook_info_t in jnihook.cpp): the method identity and
the native trampoline address, modelled as a numeric address. -/
structure hook_info where
  method_info : method_info_t
  native_hook_method : Nat
deriving DecidableEq

/-- The process-wide state of the library: g_hooks and g_class_file_cache
(jnihook.cpp, lines 43-44).  g_hooks is a map from canonical class name to a
vector of hook records; since the only mutation the source performs is
g_hooks[name].push_back(...), every key of the map holds a nonempty vector,
so the map is embedded as the flattened association list of (class name,
hook record) pairs in insertion order: a key is present in the C++ map
exactly when some pair with that name is in the list.  g_class_file_cache
maps canonical class names to parsed documents; it is embedded as an
association list whose lookup returns the first (and only) binding. -/
structure GlobalState where
  g_hooks : List (Str × hook_info)
  g_class_file_cache : List (Str × ClassFile)
deriving DecidableEq

/-- Membership test of a class name in g_hooks, embedding
g_hooks.find(class_name) != g_hooks.end(). -/
def hooksContains (hooks : List (Str × hook_info)) (n : Str) : Bool :=
  match hooks with
  | [] => false
  | (k, _) :: rest => if k = n then true else hooksContains rest n

/-- Lookup of a class name in g_class_file_cache, embedding
g_class_file_cache.find(class_name) (and dereference on a hit). -/
def cacheLookup (cache : List (Str × ClassFile)) (n : Str) : Option ClassFile :=
  match cache with
  | [] => none
  | (k, v) :: rest => if k = n then some v else cacheLookup rest n

/-- Embedding of JNIHook_ClassFileLoadHook (jnihook.cpp, lines 112-139).
Host-call outcomes are inputs: `reflectiveName` is the outcome of the JNI
name resolution inside get_class_name for the class being loaded or
retransformed, and `loadResult` is the outcome of ClassFile.load on the
delivered class bytes (`none` when parsing fails, or when the notification
is not delivered at all, which leaves the state unchanged the same way).
The callback caches the parsed document only when the canonical name is
nonempty, g_hooks has the class, and no document is cached yet. -/
def JNIHook_ClassFileLoadHook (st : GlobalState) (reflectiveName : Option Str)
    (loadResult : Option ClassFile) : GlobalState :=
  let class_name := get_class_name reflectiveName
  if class_name = [] ∨ hooksContains st.g_hooks class_name = false ∨
      (cacheLookup st.g_class_file_cache class_name).isSome then
    st
  else
    match loadResult with
    | none => st
    | some cf =>
      { st with g_class_file_cache := (class_name, cf) :: st.g_class_file_cache }

/-- Modelled from the spec: the result codes of the library (jnihook.h, a
repository header not among the given sources; the constant names are the
ones jnihook.cpp returns, and distinct names denote distinct values). -/
inductive jnihook_result where
  | JNIHOOK_OK
  | JNIHOOK_ERR_GET_JVM
  | JNIHOOK_ERR_GET_JVMTI
  | JNIHOOK_ERR_ADD_JVMTI_CAPS
  | JNIHOOK_ERR_SETUP_CLASS_FILE_LOAD_HOOK
  | JNIHOOK_ERR_JNI_OPERATION
  | JNIHOOK_ERR_JVMTI_OPERATION
  | JNIHOOK_ERR_CLASSFILE_CACHE
  | JNIHOOK_ERR_PATCH_CLASSFILE
deriving DecidableEq

/-- Search, starting at index `i`, the suffix `l` of the constant pool for the
first CONSTANT_Class entry whose name resolves to `clazz_name` through the
UTF8 accessor, returning its index, or 0 when none matches — the loop of
JNIHook_Attach at jnihook.cpp lines 224-242. -/
def find_class_index_from (cf : ClassFile) (clazz_name : Str) :
    List cp_info → Nat → Nat
  | [], _ => 0
  | item :: rest, i =>
    match item with
    | cp_info.classInfo ni =>
      if utf8At cf ni = some clazz_name then i
      else find_class_index_from cf clazz_name rest (i + 1)
    | _ => find_class_index_from cf clazz_name rest (i + 1)

/-- The class-index search of JNIHook_Attach, started at pool index 1 as the
C++ loop does (index 0 is the invalid slot). -/
def find_class_index (cf : ClassFile) (clazz_name : Str) : Nat :=
  find_class_index_from cf clazz_name (cf.constant_pool.drop 1) 1

/-- The debug output of the loop commented "Patch class file" in
JNIHook_Attach (jnihook.cpp lines 247-262): for every method record, the pair
of its resolved name and descriptor is printed; nothing else happens in the
loop — in particular no method record is modified. -/
def debug_print_methods (cf : ClassFile) : List (Str × Str) :=
  cf.methods.map (fun m =>
    ((utf8At cf m.name_index).getD [], (utf8At cf m.descriptor_index).getD []))

/-- Host-call outcomes consumed by one JNIHook_Attach call.  Each field is
the outcome of one external JVMTI/JNI interaction, in program order:
GetMethodDeclaringClass, the JNI name resolution of the declaring class
inside get_class_name, GetMethodName, the class bytes delivered to the
class-file load hook by the synchronous RetransformClasses call (already
parsed; `none` when the notification is not delivered or parsing fails), the
JNI name resolution performed by that callback itself, and the outcome of
RedefineClasses. -/
structure AttachEnv where
  declaringClassOk : Bool
  reflectiveName : Option Str
  methodInfo : Option method_info_t
  cbReflectiveName : Option Str
  emitted : Option ClassFile
  redefineOk : Bool
deriving DecidableEq

/-- Result of one JNIHook_Attach call: the returned code, the global state
after the call, the document serialized and passed to RedefineClasses when
the call reaches redefinition (`none` otherwise) together with the outcome of
that request, the native-method-binding requests issued during the call (the
facility of spec section 6 item e; the source contains no such call, so the
list records the bindings Attach actually requests), and the debug prints. -/
structure AttachOut where
  result : jnihook_result
  state : GlobalState
  redefined : Option ClassFile
  redefineOutcome : Option Bool
  bound : List (Str × Str × Nat)
  prints : List (Str × Str)
deriving DecidableEq

/-- Embedding of JNIHook_Attach (jnihook.cpp, lines 185-272).  The sequence
mirrors the source: resolve the declaring class, canonicalize its name,
resolve the method identity, append the hook record to g_hooks, let the
synchronous RetransformClasses drive JNIHook_ClassFileLoadHook (its own
return value is discarded by the source), look the class up in the cache,
search the constant pool for a Class entry naming the class, run the
print-only "Patch class file" loop, and request RedefineClasses with the
bytes of the (unmodified) document — discarding that outcome as well and
returning JNIHOOK_OK. -/
def JNIHook_Attach (env : AttachEnv) (st : GlobalState)
    (native_hook_method : Nat) : AttachOut :=
  if env.declaringClassOk = false then
    ⟨jnihook_result.JNIHOOK_ERR_JVMTI_OPERATION, st, none, none, [], []⟩
  else
    let clazz_name := get_class_name env.reflectiveName
    if clazz_name.length = 0 then
      ⟨jnihook_result.JNIHOOK_ERR_JNI_OPERATION, st, none, none, [], []⟩
    else
      match env.methodInfo with
      | none => ⟨jnihook_result.JNIHOOK_ERR_JVMTI_OPERATION, st, none, none, [], []⟩
      | some mi =>
        let hook : hook_info := ⟨mi, native_hook_method⟩
        let st1 : GlobalState :=
          { st with g_hooks := st.g_hooks ++ [(clazz_name, hook)] }
        let st2 := JNIHook_ClassFileLoadHook st1 env.cbReflectiveName env.emitted
        match cacheLookup st2.g_class_file_cache clazz_name with
        | none => ⟨jnihook_result.JNIHOOK_ERR_CLASSFILE_CACHE, st2, none, none, [], []⟩
        | some cf =>
          if find_class_index cf clazz_name = 0 then
            ⟨jnihook_result.JNIHOOK_ERR_PATCH_CLASSFILE, st2, none, none, [], []⟩
          else
            ⟨jnihook_result.JNIHOOK_OK, st2, some cf, some env.redefineOk, [],
              debug_print_methods cf⟩

/-- The state of the JVMTI session that JNIHook_Init and JNIHook_Shutdown
manipulate: whether the event-callback table holds JNIHook_ClassFileLoadHook,
and whether delivery of the class-file load event is enabled. -/
structure JvmtiState where
  callbacksInstalled : Bool
  deliveryEnabled : Bool
deriving DecidableEq

/-- Host-call outcomes consumed by one JNIHook_Init call, in program order:
GetJavaVM, GetEnv (for the JVMTI interface), GetPotentialCapabilities,
AddCapabilities, SetEventCallbacks, SetEventNotificationMode. -/
structure InitEnv where
  getJavaVMOk : Bool
  getEnvOk : Bool
  getPotentialCapsOk : Bool
  addCapsOk : Bool
  setEventCallbacksOk : Bool
  setNotificationOk : Bool
deriving DecidableEq

/-- Result of one JNIHook_Init call: the returned code, the JVMTI session
state after the call, and whether the handle bundle was written (the source
writes jnihook fields only after every step succeeded). -/
structure InitOut where
  result : jnihook_result
  js : JvmtiState
  bundleWritten : Bool
deriving DecidableEq

/-- Embedding of JNIHook_Init (jnihook.cpp, lines 141-183).  Each failing
host call aborts with the code the source returns at that point; the callback
table gains the hook when SetEventCallbacks succeeds, and delivery is enabled
when SetEventNotificationMode succeeds. -/
def JNIHook_Init (e : InitEnv) (js : JvmtiState) : InitOut :=
  if e.getJavaVMOk = false then
    ⟨jnihook_result.JNIHOOK_ERR_GET_JVM, js, false⟩
  else if e.getEnvOk = false then
    ⟨jnihook_result.JNIHOOK_ERR_GET_JVMTI, js, false⟩
  else if e.getPotentialCapsOk = false then
    ⟨jnihook_result.JNIHOOK_ERR_ADD_JVMTI_CAPS, js, false⟩
  else if e.addCapsOk = false then
    ⟨jnihook_result.JNIHOOK_ERR_ADD_JVMTI_CAPS, js, false⟩
  else if e.setEventCallbacksOk = false then
    ⟨jnihook_result.JNIHOOK_ERR_SETUP_CLASS_FILE_LOAD_HOOK, js, false⟩
  else if e.setNotificationOk = false then
    ⟨jnihook_result.JNIHOOK_ERR_SETUP_CLASS_FILE_LOAD_HOOK,
      ⟨true, js.deliveryEnabled⟩, false⟩
  else
    ⟨jnihook_result.JNIHOOK_OK, ⟨true, true⟩, true⟩

/-- The session handle bundle jnihook_t (jvm, env, jvmti), each handle
modelled as a numeric address with 0 for the null pointer; memset to zero
nulls all three. -/
structure jnihook_t where
  jvm : Nat
  env : Nat
  jvmti : Nat
deriving DecidableEq

/-- Embedding of JNIHook_Shutdown (jnihook.cpp, lines 277-287).  The source
calls SetEventNotificationMode(JVMTI_DISABLE) and SetEventCallbacks with an
empty table through hd.jvmti and then memsets the bundle to zero; both host
calls dereference hd.jvmti, so on a bundle whose jvmti handle is null (as
after a previous shutdown) the behavior is undefined, modelled as `none`.
The registry/cache state is passed through untouched, since the source never
reads or writes g_hooks or g_class_file_cache here. -/
def JNIHook_Shutdown (hd : jnihook_t) (_js : JvmtiState) (st : GlobalState) :
    Option (jnihook_t × JvmtiState × GlobalState) :=
  if hd.jvmti = 0 then none
  else some (⟨0, 0, 0⟩, ⟨false, false⟩, st)

/-! Concrete scenario data used to evaluate the embedded operations. -/

/-- The class name Foo, dot-free, so its canonical form is itself. -/
def nmFoo : Str := ['F', 'o', 'o']

/-- The method name run of the spec scenario (spec section 8, example 2). -/
def nmRun : Str := ['r', 'u', 'n']

/-- A second method name of the same class, for the cumulative-patch scenario. -/
def nmTick : Str := ['t', 'i', 'c', 'k']

/-- A method name distinct from every attach target. -/
def nmOther : Str := ['o', 't', 'h', 'e', 'r']

/-- The descriptor of a method taking nothing and returning void. -/
def sigVoid : Str := ['(', ')', 'V']

/-- The descriptor of a method taking nothing and returning int. -/
def sigInt : Str := ['(', ')', 'I']

/-- The empty global state: no hooks registered, nothing cached. -/
def st0 : GlobalState := ⟨[], []⟩

/-- A public (flags 1) method record named run with descriptor ()V and one
Code attribute (name index 5 resolves to the UTF8 entry "Code" of cf1). -/
def mRun1 : method_info := ⟨1, 3, 4, [⟨5, []⟩]⟩

/-- A minimal document for class Foo with the single method run()V carrying a
Code attribute: pool slot 0 is the invalid slot, slot 1 the Class entry for
Foo, slots 2-5 the UTF8 entries Foo, run, ()V, Code. -/
def cf1 : ClassFile :=
  ⟨[cp_info.other 0, cp_info.classInfo 2, cp_info.utf8 nmFoo, cp_info.utf8 nmRun,
    cp_info.utf8 sigVoid, cp_info.utf8 ['C', 'o', 'd', 'e']], [mRun1]⟩

/-- Attach outcomes for hooking Foo.run()V on the empty state: every host
call succeeds and the retransformation callback delivers cf1. -/
def envC1 : AttachEnv := ⟨true, some nmFoo, some ⟨nmRun, sigVoid⟩, some nmFoo, some cf1, true⟩

/-- Same as envC1 except that the RedefineClasses request fails. -/
def envC3 : AttachEnv := ⟨true, some nmFoo, some ⟨nmRun, sigVoid⟩, some nmFoo, some cf1, false⟩

/-- Method record run()V of cf2 (Code attribute name index 6). -/
def mRun2 : method_info := ⟨1, 3, 4, [⟨6, []⟩]⟩

/-- Method record tick()V of cf2 (Code attribute name index 6). -/
def mTick2 : method_info := ⟨1, 5, 4, [⟨6, []⟩]⟩

/-- A document for class Foo with two methods run()V and tick()V, each
carrying a Code attribute. -/
def cf2 : ClassFile :=
  ⟨[cp_info.other 0, cp_info.classInfo 2, cp_info.utf8 nmFoo, cp_info.utf8 nmRun,
    cp_info.utf8 sigVoid, cp_info.utf8 nmTick, cp_info.utf8 ['C', 'o', 'd', 'e']],
    [mRun2, mTick2]⟩

/-- First attach of the cumulative scenario: hook Foo.run()V; the callback
delivers cf2. -/
def envC4first : AttachEnv := ⟨true, some nmFoo, some ⟨nmRun, sigVoid⟩, some nmFoo, some cf2, true⟩

/-- Second attach of the cumulative scenario: hook Foo.tick()V; the class is
already cached, so the callback contributes nothing. -/
def envC4second : AttachEnv := ⟨true, some nmFoo, some ⟨nmTick, sigVoid⟩, some nmFoo, none, true⟩

/-- The global state after the first attach of the cumulative scenario. -/
def stC4 : GlobalState := (JNIHook_Attach envC4first st0 11).state

/-- A method record named other with descriptor ()I, no attributes. -/
def mOther7 : method_info := ⟨1, 3, 4, []⟩

/-- A document for class Foo whose only method is other()I: its constant pool
has a Class entry for Foo, but no method record matches run()V. -/
def cf7 : ClassFile :=
  ⟨[cp_info.other 0, cp_info.classInfo 2, cp_info.utf8 nmFoo, cp_info.utf8 nmOther,
    cp_info.utf8 sigInt], [mOther7]⟩

/-- Attach outcomes for hooking Foo.run()V when the cached document cf7 has
no matching method record. -/
def envC7 : AttachEnv := ⟨true, some nmFoo, some ⟨nmRun, sigVoid⟩, some nmFoo, some cf7, true⟩

/-- A registered hook record for Foo.run()V with trampoline address 77. -/
def hookRun : hook_info := ⟨⟨nmRun, sigVoid⟩, 77⟩

/-- A state with one hook registered for Foo and an empty cache, as seen by
the load notification triggered from an attach on a not-yet-cached class. -/
def stC5 : GlobalState := ⟨[(nmFoo, hookRun)], []⟩

/-- Attach outcomes where identity resolution succeeds but the
retransformation callback delivers nothing, so the cache stays empty. -/
def envC10 : AttachEnv := ⟨true, some nmFoo, some ⟨nmRun, sigVoid⟩, some nmFoo, none, true⟩

/-- Init outcomes where every host call succeeds except the final
SetEventNotificationMode. -/
def envInitEnableFail : InitEnv := ⟨true, true, true, true, true, false⟩

/-- A JVMTI session state with no callback installed and delivery off. -/
def js00 : JvmtiState := ⟨false, false⟩

/-- A live session handle bundle with non-null handles. -/
def hdLive : jnihook_t := ⟨4, 5, 6⟩

/-- A state with one hook registered and one cached document, to observe that
shutdown leaves both maps alone. -/
def stC9 : GlobalState := ⟨[(nmFoo, hookRun)], [(nmFoo, cf1)]⟩

/-! Helper lemmas shared by the claim theorems. -/

/-- The class-file load notification never touches the hook registry. -/
theorem classFileLoadHook_g_hooks (st : GlobalState) (rn : Option Str)
    (ld : Option ClassFile) :
    (JNIHook_ClassFileLoadHook st rn ld).g_hooks = st.g_hooks := by
  unfold JNIHook_ClassFileLoadHook
  split
  all_goals
    dsimp only
    split <;> rfl

/-- Membership in the flattened registry: a positive hooksContains test
yields a hook record registered under that name. -/
theorem hooksContains_exists (hooks : List (Str × hook_info)) (n : Str)
    (h : hooksContains hooks n = true) : ∃ hk, (n, hk) ∈ hooks := by
  induction hooks with
  | nil => simp [hooksContains] at h
  | cons p rest ih =>
    obtain ⟨k, v⟩ := p
    by_cases hk : k = n
    · exact ⟨v, by simp [hk]⟩
    · rw [hooksContains, if_neg hk] at h
      obtain ⟨w, hw⟩ := ih h
      exact ⟨w, List.mem_cons_of_mem _ hw⟩

/-- Mapping a function over the separators and segments commutes with
intersperse. -/
theorem map_intersperse_str (f : Str → Str) (sep : Str) (l : List Str) :
    (List.intersperse sep l).map f = List.intersperse (f sep) (l.map f) := by
  induction l with
  | nil => rfl
  | cons x xs ih =>
    cases xs with
    | nil => rfl
    | cons y ys =>
      simp only [List.intersperse_cons_cons, List.map_cons] at *
      rw [ih]

/-- Canonicalization distributes over list flattening. -/
theorem canonicalize_flatten (L : List Str) :
    canonicalize L.flatten = (L.map canonicalize).flatten := by
  show (L.flatten).map dot_to_slash = _
  rw [List.map_flatten]
  rfl

/-- Canonicalization distributes over intercalation: the separator and every
segment are canonicalized independently. -/
theorem canonicalize_intercalate (sep : Str) (l : List Str) :
    canonicalize (List.intercalate sep l) =
      List.intercalate (canonicalize sep) (l.map canonicalize) := by
  simp only [List.intercalate]
  rw [canonicalize_flatten, map_intersperse_str]

/-- A string without dots is fixed by canonicalization. -/
theorem canonicalize_of_dot_not_mem (s : Str) (h : '.' ∉ s) : canonicalize s = s := by
  induction s with
  | nil => rfl
  | cons c cs ih =>
    simp only [List.mem_cons, not_or] at h
    simp only [canonicalize, List.map_cons] at *
    rw [ih h.2]
    have hc : dot_to_slash c = c := if_neg (fun hc => h.1 hc.symm)
    rw [hc]

/-! Claim theorems. -/

/-- C1: the claim says that a successful Attach hands class redefinition a
document whose target method record is marked native and stripped of its
Code attribute.  The code does neither: the loop under the "Patch class
file" comment only prints each method record.  On the concrete run-hook
scenario, Attach succeeds, yet the document passed to RedefineClasses is the
pristine cf1, whose matching method run()V has the native bit clear and
still carries its Code attribute. -/
theorem attach_leaves_target_method_unpatched :
    (JNIHook_Attach envC1 st0 1000).result = jnihook_result.JNIHOOK_OK ∧
    (JNIHook_Attach envC1 st0 1000).redefined = some cf1 ∧
    methodMatches cf1 nmRun sigVoid mRun1 = true ∧
    mRun1.access_flags &&& ACC_NATIVE = 0 ∧
    hasCodeAttr cf1 mRun1 = true := by
  decide

/-- C2: the claim says that after a successful redefinition the trampoline
address is bound as the native implementation of the (name, descriptor) pair
before Attach returns.  The code contains no native-method-binding call at
all: whatever the host-call outcomes, the state and the trampoline address,
the list of binding requests Attach issues is empty. -/
theorem attach_never_binds_native_method (env : AttachEnv) (st : GlobalState)
    (t : Nat) : (JNIHook_Attach env st t).bound = [] := by
  unfold JNIHook_Attach
  split
  · rfl
  dsimp only
  split
  · rfl
  split
  · rfl
  split
  · rfl
  split <;> rfl

/-- C3: the claim says a failed class redefinition is returned to the caller
as a typed error.  The code discards the return value of RedefineClasses: on
the concrete scenario where every step succeeds but the redefinition request
fails, Attach still returns JNIHOOK_OK (the appended hook record does remain
registered, as the claim also states). -/
theorem attach_ignores_redefinition_failure :
    (JNIHook_Attach envC3 st0 1000).redefineOutcome = some false ∧
    (JNIHook_Attach envC3 st0 1000).result = jnihook_result.JNIHOOK_OK ∧
    (JNIHook_Attach envC3 st0 1000).state.g_hooks =
      [(nmFoo, ⟨⟨nmRun, sigVoid⟩, 1000⟩)] := by
  decide

/-- C4: the claim says the cache entry is overwritten with the patched
document, so a second Attach on the same class redefines a document with
both methods native and stripped.  The code never patches and never writes
the cache after redefinition: on the concrete two-method scenario, both
Attach calls succeed, yet the second redefinition submits the pristine cf2,
in which run()V and tick()V both have the native bit clear and keep their
Code attributes, and the cache still holds pristine cf2. -/
theorem second_attach_redefines_unpatched_document :
    (JNIHook_Attach envC4first st0 11).result = jnihook_result.JNIHOOK_OK ∧
    (JNIHook_Attach envC4second stC4 22).result = jnihook_result.JNIHOOK_OK ∧
    (JNIHook_Attach envC4second stC4 22).redefined = some cf2 ∧
    methodMatches cf2 nmRun sigVoid mRun2 = true ∧
    methodMatches cf2 nmTick sigVoid mTick2 = true ∧
    mRun2.access_flags &&& ACC_NATIVE = 0 ∧
    mTick2.access_flags &&& ACC_NATIVE = 0 ∧
    hasCodeAttr cf2 mRun2 = true ∧
    hasCodeAttr cf2 mTick2 = true ∧
    cacheLookup (JNIHook_Attach envC4second stC4 22).state.g_class_file_cache
      nmFoo = some cf2 := by
  decide

/-- C5: a load notification changes the cached document for a name only by
inserting it, and only when the registry already holds at least one hook
record for that name and nothing is cached for it yet; a name that is
already cached keeps exactly its document through any later notification. -/
theorem classFileLoadHook_cache_once_policy (st : GlobalState) (rn : Option Str)
    (ld : Option ClassFile) (n : Str) :
    (cacheLookup (JNIHook_ClassFileLoadHook st rn ld).g_class_file_cache n ≠
        cacheLookup st.g_class_file_cache n →
      (∃ hk, (n, hk) ∈ st.g_hooks) ∧
        cacheLookup st.g_class_file_cache n = none) ∧
    (∀ d, cacheLookup st.g_class_file_cache n = some d →
      cacheLookup (JNIHook_ClassFileLoadHook st rn ld).g_class_file_cache n =
        some d) := by
  unfold JNIHook_ClassFileLoadHook
  dsimp only
  split
  · exact ⟨fun hne => absurd rfl hne, fun d hd => hd⟩
  · rename_i hguard
    push_neg at hguard
    obtain ⟨
      hname, hcont, hsome⟩ := hguard
    cases ld with
    | none => exact ⟨fun hne => absurd rfl hne, fun d hd => hd⟩
    | some cf =>
      constructor
      · intro hne
        by_cases hn : get_class_name rn = n
        · subst hn
          refine ⟨hooksContains_exists _ _ ?_, ?_⟩
          · cases hcb : hooksContains st.g_hooks (get_class_name rn) with
            | false => exact absurd hcb hcont
            | true => rfl
          · exact Option.not_isSome_iff_eq_none.mp hsome
        · rw [cacheLookup, if_neg hn] at hne
          exact absurd rfl hne
      · intro d hd
        by_cases hn : get_class_name rn = n
        · subst hn
          rw [hd] at hsome
          exact absurd rfl hsome
        · rw [cacheLookup, if_neg hn]
          exact hd

/-- C5 witness: on a state with one hook registered for Foo and an empty
cache, a notification delivering cf1 changes the cache entry for Foo, and
the theorem yields that a hook record for Foo was registered and nothing was
cached before. -/
theorem classFileLoadHook_cache_once_policy_witness :
    (∃ hk, (nmFoo, hk) ∈ stC5.g_hooks) ∧
      cacheLookup stC5.g_class_file_cache nmFoo = none :=
  (classFileLoadHook_cache_once_policy stC5 (some nmFoo) (some cf1) nmFoo).1
    (by decide)

/-- C6: the canonicalizer sends the dotted and the slash-delimited spellings
of one class name (the same segments intercalated with a dot, respectively a
slash) to the same key, and when the segments are dot-free that common key
is the slash-delimited spelling itself. -/
theorem canonicalize_dotted_eq_canonicalize_slashed (segs : List Str) :
    canonicalize (List.intercalate ['.'] segs) =
      canonicalize (List.intercalate ['/'] segs) ∧
    ((∀ seg ∈ segs, '.' ∉ seg) →
      canonicalize (List.intercalate ['.'] segs) =
        List.intercalate ['/'] segs) := by
  have hdot : canonicalize ['.'] = ['/'] := by decide
  have hslash : canonicalize ['/'] = ['/'] := by decide
  constructor
  · rw [canonicalize_intercalate, canonicalize_intercalate, hdot, hslash]
  · intro h
    rw [canonicalize_intercalate, hdot]
    have hfix : segs.map canonicalize = segs := by
      have : ∀ seg ∈ segs, canonicalize seg = seg :=
        fun seg hs => canonicalize_of_dot_not_mem seg (h seg hs)
      calc segs.map canonicalize = segs.map id := List.map_congr_left this
        _ = segs := List.map_id segs
    rw [hfix]

/-- C6 witness: for the segments a, b, C, the dotted spelling a.b.C
canonicalizes to the slash-delimited key a/b/C. -/
theorem canonicalize_dotted_eq_canonicalize_slashed_witness :
    canonicalize (List.intercalate ['.'] [['a'], ['b'], ['C']]) =
      List.intercalate ['/'] [['a'], ['b'], ['C']] :=
  (canonicalize_dotted_eq_canonicalize_slashed [['a'], ['b'], ['C']]).2
    (by decide)

/-- C7: the claim says Attach returns the patch error when no cached method
record matches the target name and descriptor.  The code never compares
method records against the target: on the concrete scenario where the cached
cf7 has a Class entry for Foo but no method record matching run()V, Attach
returns JNIHOOK_OK instead of JNIHOOK_ERR_PATCH_CLASSFILE. -/
theorem attach_returns_ok_without_matching_method :
    cf7.methods.all (fun m => !(methodMatches cf7 nmRun sigVoid m)) = true ∧
    (JNIHook_Attach envC7 st0 1000).result = jnihook_result.JNIHOOK_OK := by
  decide

/-- C10: whenever Attach returns the cache-miss or the patch error, the hook
record it appended beforehand is still in the registry: the final registry
is the initial one extended with exactly the record built from the resolved
method identity and the trampoline address, keyed by the canonical name. -/
theorem attach_failure_keeps_hook_record (env : AttachEnv) (st : GlobalState)
    (t : Nat) :
    (JNIHook_Attach env st t).result = jnihook_result.JNIHOOK_ERR_CLASSFILE_CACHE ∨
    (JNIHook_Attach env st t).result = jnihook_result.JNIHOOK_ERR_PATCH_CLASSFILE →
    ∃ mi, env.methodInfo = some mi ∧
      (JNIHook_Attach env st t).state.g_hooks =
        st.g_hooks ++ [(get_class_name env.reflectiveName, ⟨mi, t⟩)] := by
  intro h
  unfold JNIHook_Attach at h ⊢
  cases hdc : env.declaringClassOk with
  | false => simp [hdc] at h
  | true =>
    simp only [hdc] at h ⊢
    by_cases hlen : (get_class_name env.reflectiveName).length = 0
    · simp [hlen] at h
    · simp only [if_neg hlen, Bool.true_eq_false, if_false] at h ⊢
      cases hmi : env.methodInfo with
      | none => simp [hmi] at h
      | some mi =>
        simp only [hmi] at h ⊢
        cases hcl : cacheLookup
            (JNIHook_ClassFileLoadHook
              { st with g_hooks :=
                  st.g_hooks ++ [(get_class_name env.reflectiveName, ⟨mi, t⟩)] }
              env.cbReflectiveName env.emitted).g_class_file_cache
            (get_class_name env.reflectiveName) with
        | none =>
          simp only [hcl] at h ⊢
          exact ⟨mi, rfl, by rw [classFileLoadHook_g_hooks]⟩
        | some cf =>
          simp only [hcl] at h ⊢
          by_cases hfi : find_class_index cf (get_class_name env.reflectiveName) = 0
          · simp only [if_pos hfi] at h ⊢
            exact ⟨mi, rfl, by rw [classFileLoadHook_g_hooks]⟩
          · simp [if_neg hfi] at h

/-- C10 witness: on the empty state, with identity resolution succeeding and
the retransformation callback delivering nothing, Attach fails with the
cache-miss error and the theorem yields the registry extended with exactly
the appended record. -/
theorem attach_failure_keeps_hook_record_witness :
    ∃ mi, envC10.methodInfo = some mi ∧
      (JNIHook_Attach envC10 st0 77).state.g_hooks =
        st0.g_hooks ++ [(get_class_name envC10.reflectiveName, ⟨mi, 77⟩)] :=
  attach_failure_keeps_hook_record envC10 st0 77 (Or.inl (by decide))

/-- C8 counterexample: the claim says a failing Init step leaves no
class-load callback installed.  When every step succeeds except the final
SetEventNotificationMode, Init returns the setup error, yet the callback
installed by the preceding SetEventCallbacks step is still in the table. -/
theorem init_enable_failure_leaves_callback_installed :
    (JNIHook_Init envInitEnableFail js00).result =
      jnihook_result.JNIHOOK_ERR_SETUP_CLASS_FILE_LOAD_HOOK ∧
    (JNIHook_Init envInitEnableFail js00).js.callbacksInstalled = true := by
  decide

/-- C8 amended: each failing Init step aborts with the error of its step
group — GET_JVM for GetJavaVM, GET_JVMTI for GetEnv, ADD_JVMTI_CAPS for
either capability call, SETUP_CLASS_FILE_LOAD_HOOK for either callback-setup
call — the handle bundle is written only on full success, and the callback
becomes installed exactly when SetEventCallbacks is reached and succeeds,
even if enabling delivery then fails. -/
theorem init_error_mapping_and_callback_state :
    ∀ a b c d e f g h : Bool,
      ((JNIHook_Init ⟨a, b, c, d, e, f⟩ ⟨g, h⟩).result =
          jnihook_result.JNIHOOK_OK ↔ (a && b && c && d && e && f) = true) ∧
      ((JNIHook_Init ⟨a, b, c, d, e, f⟩ ⟨g, h⟩).result =
          jnihook_result.JNIHOOK_ERR_GET_JVM ↔ a = false) ∧
      ((JNIHook_Init ⟨a, b, c, d, e, f⟩ ⟨g, h⟩).result =
          jnihook_result.JNIHOOK_ERR_GET_JVMTI ↔ (a && !b) = true) ∧
      ((JNIHook_Init ⟨a, b, c, d, e, f⟩ ⟨g, h⟩).result =
          jnihook_result.JNIHOOK_ERR_ADD_JVMTI_CAPS ↔
          (a && b && (!c || !d)) = true) ∧
      ((JNIHook_Init ⟨a, b, c, d, e, f⟩ ⟨g, h⟩).result =
          jnihook_result.JNIHOOK_ERR_SETUP_CLASS_FILE_LOAD_HOOK ↔
          (a && b && c && d && (!e || !f)) = true) ∧
      ((JNIHook_Init ⟨a, b, c, d, e, f⟩ ⟨g, h⟩).js.callbacksInstalled =
          (g || (a && b && c && d && e))) ∧
      ((JNIHook_Init ⟨a, b, c, d, e, f⟩ ⟨g, h⟩).js.deliveryEnabled =
          (h || (a && b && c && d && e && f))) ∧
      ((JNIHook_Init ⟨a, b, c, d, e, f⟩ ⟨g, h⟩).bundleWritten =
          (a && b && c && d && e && f)) := by
  decide

/-- C8 amended witness: when GetJavaVM fails on a fresh session state, the
theorem yields the GET_JVM error. -/
theorem init_error_mapping_witness :
    (JNIHook_Init ⟨false, true, true, true, true, true⟩ js00).result =
      jnihook_result.JNIHOOK_ERR_GET_JVM :=
  (init_error_mapping_and_callback_state false true true true true true
    false false).2.1.mpr rfl

/-- C9 counterexample: the claim says Shutdown is idempotent and always
succeeds, even on an already-shut-down handle.  A first Shutdown on a live
handle zeroes the bundle; a second Shutdown on that zeroed bundle calls the
host through a null instrumentation handle, which is not a successful
return. -/
theorem shutdown_on_zeroed_handle_crashes :
    JNIHook_Shutdown hdLive ⟨true, true⟩ stC9 =
      some (⟨0, 0, 0⟩, ⟨false, false⟩, stC9) ∧
    JNIHook_Shutdown ⟨0, 0, 0⟩ ⟨false, false⟩ stC9 = none := by
  decide

/-- C9 amended: on a bundle whose instrumentation handle is non-null,
Shutdown disables delivery, clears the callback table, zeroes every bundle
field, returns without error, and leaves the hook registry and the class
cache exactly as they were. -/
theorem shutdown_resets_session_and_preserves_maps (hd : jnihook_t)
    (js : JvmtiState) (st : GlobalState) (h : hd.jvmti ≠ 0) :
    JNIHook_Shutdown hd js st = some (⟨0, 0, 0⟩, ⟨false, false⟩, st) := by
  unfold JNIHook_Shutdown
  rw [if_neg h]

/-- C9 amended witness: shutting down a live handle over a state holding one
hook and one cached document zeroes the bundle and session state and keeps
that registry and cache content. -/
theorem shutdown_resets_session_and_preserves_maps_witness :
    JNIHook_Shutdown hdLive ⟨true, true⟩ stC9 =
      some (⟨0, 0, 0⟩, ⟨false, false⟩, stC9) :=
  shutdown_resets_session_and_preserves_maps hdLive ⟨true, true⟩ stC9
    (by decide)

end JNIHookModel
